import Mathlib

/-!
# Verification of the `yara` Go façade (`src/yara.go`)

Shallow embedding of the cgo façade over the external libyara engine.
The façade itself (error translation, argument passing, slice access,
lifecycle calls) is translated directly from `yara.go`.  The external
engine (rule grammar, scan loop, artifact serialization) is not part of
the repository's sources; where a claim depends on it, the engine is
modelled from the spec, and each such definition's doc comment says so.
-/

namespace Yara

/-- The engine's success sentinel (`ERROR_SUCCESS` in `yara.h`): 0. -/
def ERROR_SUCCESS : Int := 0

/-- Modelled from the spec: the non-success status code the engine returns
when it cannot open a file path passed to it (`yr_rules_scan_file`,
`yr_rules_load`).  Only `≠ ERROR_SUCCESS` matters to the façade. -/
def ERROR_COULD_NOT_OPEN_FILE : Int := 3

/-- Modelled from the spec: the non-success status code the engine returns
when the caller's callback answered `Fail`.  Only `≠ ERROR_SUCCESS`
matters to the façade. -/
def ERROR_CALLBACK_ERROR : Int := 4

/-- `CallbackStatus` (yara.go:21): the three-valued signal the caller's
handler returns, `Continue` / `Abort` / `Fail`. -/
inductive CallbackStatus where
  | Continue
  | Abort
  | Fail
deriving DecidableEq, Repr

/-- The error values the Go façade can return.  `yaraCode` is the numeric
`Error` type (yara.go:35) wrapping a native status code; the other three
are the `fmt.Errorf` values built at yara.go:87, yara.go:94 and
yara.go:108. -/
inductive GoError where
  | yaraCode (code : Int)
  | openFailed (path : String)
  | compileFileFailed (path : String)
  | compileStringFailed
deriving DecidableEq, Repr

/-- Outcome of a Go computation that can hit a runtime panic
(e.g. an out-of-bounds slice access). -/
inductive GoResult (α : Type) where
  | goPanic (msg : String)
  | ok (val : α)
deriving DecidableEq, Repr

/-- `Rule` (yara.go:187): the match record handed to the callback.  Go's
`Tags []string` is a slice whose zero value is `nil`: embedded as
`Option (List String)` with `none` for the nil slice.  Go's
`Metadata map[string]string` is a map whose zero value is `nil`:
embedded as `Option (List (String × String))` with `none` for the nil
map. -/
structure Rule where
  Identifier : String
  Tags : Option (List String)
  Metadata : Option (List (String × String))
deriving DecidableEq, Repr

/-- `NewRule` (yara.go:193): `&Rule{Metadata: make(map[string]string)}`.
`Identifier` and `Tags` take their Go zero values (empty string, nil
slice); `Metadata` is an allocated empty map. -/
def NewRule : Rule :=
  { Identifier := "", Tags := none, Metadata := some [] }

/-- Set `k` to `v` in an association list, replacing an existing binding. -/
def assocSet (l : List (String × String)) (k v : String) :
    List (String × String) :=
  match l with
  | [] => [(k, v)]
  | (k₀, v₀) :: rest =>
    if k₀ = k then (k, v) :: rest else (k₀, v₀) :: assocSet rest k v

/-- Go map assignment `m[k] = v`: assigning into a nil map is a runtime
panic, assigning into an allocated map succeeds. -/
def goMapInsert (m : Option (List (String × String))) (k v : String) :
    GoResult (List (String × String)) :=
  match m with
  | none => .goPanic "assignment to entry in nil map"
  | some l => .ok (assocSet l k v)

/-- Modelled from the spec: one compiled rule held by the engine.  The
rule grammar and condition evaluation are owned by the external engine
and out of scope; a compiled rule is its namespace, identifier, tags,
metadata, and its condition as a predicate on buffers. -/
structure CompiledRule where
  ns : String
  identifier : String
  tags : List String
  metadata : List (String × String)
  condition : List Nat → Bool

/-- Modelled from the spec: a rule source as the engine sees it.  The
parser is external; a source is embedded as the rule definitions it
parses to plus the number of compile errors the engine reports for it. -/
structure Source where
  defs : List CompiledRule
  errorCount : Nat

/-- Native compiler session state (`YR_COMPILER`): the rules accumulated
so far, each tagged with the namespace it was merged under. -/
structure YR_COMPILER where
  rules : List CompiledRule

/-- Native compiled rule set (`YR_RULES`). -/
structure YR_RULES where
  rules : List CompiledRule

/-- Modelled from the spec / libyara convention: a NULL namespace argument
denotes the engine's default namespace. -/
def defaultNamespace : String := "default"

/-- Modelled from the spec: `yr_compiler_add_file` / `yr_compiler_add_string`.
Compiles the source and merges its rules into the session under the
namespace argument (NULL = default namespace), returning the number of
compile errors; a source with compile errors is not merged. -/
def yr_compiler_add (c : YR_COMPILER) (src : Source) (nsArg : Option String) :
    Nat × YR_COMPILER :=
  if src.errorCount > 0 then
    (src.errorCount, c)
  else
    (0, ⟨c.rules ++ src.defs.map fun d => { d with ns := nsArg.getD defaultNamespace }⟩)

/-- `NewCompiler` (yara.go:62): `yr_compiler_create` yields a status code
and, on success, a fresh empty session.  `code` is the status the engine
returned; the Go pointer indirection is flattened to the session state. -/
def NewCompiler (code : Int) : Except GoError YR_COMPILER :=
  if code ≠ ERROR_SUCCESS then .error (.yaraCode code)
  else .ok ⟨[]⟩

/-- `Compiler.AddFile` (yara.go:76).  `fopen` models `C.fopen` plus the
engine's read-and-parse of the opened file: `none` when the path cannot
be opened, otherwise the parsed source (the parser is external, see
`Source`).  Faithful to the source: the namespace argument passed to
`yr_compiler_add_file` at yara.go:92 is `nil`, not `cns` — the `ns`
parameter is converted to a C string and freed but never passed. -/
def Compiler.AddFile (c : YR_COMPILER) (ns path : String)
    (fopen : String → Option Source) : Except GoError YR_COMPILER :=
  match fopen path with
  | none => .error (.openFailed path)
  | some src =>
    let (errors, c') := yr_compiler_add c src none
    if errors > 0 then .error (.compileFileFailed path)
    else .ok c'

/-- `Compiler.AddString` (yara.go:100): compiles the in-memory source and
merges it under `ns` (here `cns` IS passed to `yr_compiler_add_string`). -/
def Compiler.AddString (c : YR_COMPILER) (ns : String) (rule : Source) :
    Except GoError YR_COMPILER :=
  let (errors, c') := yr_compiler_add c rule (some ns)
  if errors > 0 then .error .compileStringFailed
  else .ok c'

/-- `Compiler.Rules` (yara.go:114): `yr_compiler_get_rules` yields a
status code and, on success, the session finalized into a rule set
(modelled from the spec: the finalized artifact holds exactly the
accumulated rules).  `code` is the status the engine returned. -/
def Compiler.Rules (c : YR_COMPILER) (code : Int) : Except GoError YR_RULES :=
  if code ≠ ERROR_SUCCESS then .error (.yaraCode code)
  else .ok ⟨c.rules⟩

/-- `Finalize` (yara.go:49): translate the status code `yr_finalize`
returned. -/
def Finalize (code : Int) : Option GoError :=
  if code ≠ ERROR_SUCCESS then some (.yaraCode code)
  else none

/-- Modelled from the spec: the trampoline that copies identifier, tag
list and metadata key/value pairs out of the engine's match event into a
fresh `Rule` record before invoking the caller's handler. -/
def matchRecord (cr : CompiledRule) : Rule :=
  { Identifier := cr.identifier, Tags := some cr.tags, Metadata := some cr.metadata }

/-- Modelled from the spec: the engine's scan loop.  Each compiled rule is
evaluated against the buffer in engine order; for each rule whose
condition is satisfied the callback is invoked with a fresh match record
and its status is consumed immediately: `Continue` keeps evaluating,
`Abort` stops with the success status, `Fail` stops with a non-success
status.  Returns the engine status code and the ordered list of match
records the callback was invoked with. -/
def scanLoop (fn : Rule → CallbackStatus) (buffer : List Nat) :
    List CompiledRule → Int × List Rule
  | [] => (ERROR_SUCCESS, [])
  | r :: rest =>
    if r.condition buffer then
      let record := matchRecord r
      match fn record with
      | .Continue =>
        let (code, trace) := scanLoop fn buffer rest
        (code, record :: trace)
      | .Abort => (ERROR_SUCCESS, [record])
      | .Fail => (ERROR_CALLBACK_ERROR, [record])
    else scanLoop fn buffer rest

/-- Modelled from the spec: `yr_rules_scan_mem` runs the scan loop over
the compiled rules. -/
def yr_rules_scan_mem (r : YR_RULES) (buffer : List Nat)
    (fn : Rule → CallbackStatus) : Int × List Rule :=
  scanLoop fn buffer r.rules

/-- `Rules.ScanMemory` (yara.go:162).  Line 163 takes `&buffer[0]` before
calling the engine: on an empty slice this bounds-checked access is a Go
runtime panic.  Otherwise the engine status is translated exactly as in
the source (`nil` on `ERROR_SUCCESS`, `Error(code)` otherwise).  The
result carries the ordered trace of callback invocations. -/
def Rules.ScanMemory (r : YR_RULES) (buffer : List Nat)
    (fn : Rule → CallbackStatus) : GoResult (Option GoError × List Rule) :=
  if buffer.isEmpty then
    .goPanic "runtime error: index out of range [0] with length 0"
  else
    let (code, trace) := yr_rules_scan_mem r buffer fn
    if code ≠ ERROR_SUCCESS then .ok (some (.yaraCode code), trace)
    else .ok (none, trace)

/-- Modelled from the spec: `yr_rules_scan_file` opens `path` inside the
engine; failure to open yields a non-success status before any callback
runs, otherwise the scan loop runs on the file's bytes.  `fopen` models
the engine's view of the file system. -/
def yr_rules_scan_file (r : YR_RULES) (fopen : String → Option (List Nat))
    (path : String) (fn : Rule → CallbackStatus) : Int × List Rule :=
  match fopen path with
  | none => (ERROR_COULD_NOT_OPEN_FILE, [])
  | some buffer => scanLoop fn buffer r.rules

/-- `Rules.ScanFile` (yara.go:175): call the engine, translate the status
code exactly as in the source.  The result carries the ordered trace of
callback invocations. -/
def Rules.ScanFile (r : YR_RULES) (fopen : String → Option (List Nat))
    (path : String) (fn : Rule → CallbackStatus) :
    Option GoError × List Rule :=
  let (code, trace) := yr_rules_scan_file r fopen path fn
  if code ≠ ERROR_SUCCESS then (some (.yaraCode code), trace)
  else (none, trace)

/-- Modelled from the spec: a saved artifact is the serialized rule set;
the format is opaque and owned by the engine, so serialization is
embedded as the identity into an opaque wrapper. -/
structure SerializedRules where
  rules : List CompiledRule

/-- A file store mapping paths to saved artifacts. -/
def FileStore := List (String × SerializedRules)

/-- Look a path up in the file store. -/
def FileStore.find : FileStore → String → Option SerializedRules
  | [], _ => none
  | (p, s) :: rest, path => if p = path then some s else FileStore.find rest path

/-- Write an artifact at a path, overwriting any existing content. -/
def FileStore.put (fs : FileStore) (path : String) (s : SerializedRules) :
    FileStore :=
  (path, s) :: fs

/-- Modelled from the spec: `yr_rules_save` serializes the rule set to
`path`, overwriting; `ioOk` models whether the path is writable.  Returns
the engine status and the updated store. -/
def yr_rules_save (r : YR_RULES) (path : String) (fs : FileStore)
    (ioOk : Bool) : Int × FileStore :=
  if ioOk then (ERROR_SUCCESS, fs.put path ⟨r.rules⟩)
  else (ERROR_COULD_NOT_OPEN_FILE, fs)

/-- Modelled from the spec: `yr_rules_load` deserializes a previously
saved artifact; a missing path yields a non-success status. -/
def yr_rules_load (path : String) (fs : FileStore) : Int × YR_RULES :=
  match fs.find path with
  | none => (ERROR_COULD_NOT_OPEN_FILE, ⟨[]⟩)
  | some s => (ERROR_SUCCESS, ⟨s.rules⟩)

/-- `Rules.Save` (yara.go:150): call the engine, translate the status code
exactly as in the source. -/
def Rules.Save (r : YR_RULES) (path : String) (fs : FileStore) (ioOk : Bool) :
    Option GoError × FileStore :=
  let (code, fs') := yr_rules_save r path fs ioOk
  if code ≠ ERROR_SUCCESS then (some (.yaraCode code), fs')
  else (none, fs')

/-- `LoadFromFile` (yara.go:130): call the engine, translate the status
code exactly as in the source. -/
def LoadFromFile (path : String) (fs : FileStore) : Except GoError YR_RULES :=
  let (code, handle) := yr_rules_load path fs
  if code ≠ ERROR_SUCCESS then .error (.yaraCode code)
  else .ok handle

/-- The Go `Compiler` value (yara.go:58) is a bare native pointer. -/
structure Compiler where
  handle : Nat
deriving DecidableEq, Repr

/-- The Go `Rules` value (yara.go:126) is a bare native pointer. -/
structure Rules where
  handle : Nat
deriving DecidableEq, Repr

/-- Modelled from the spec: the native heap's view of which compiler and
rule-set handles are currently live. -/
structure NativeHeap where
  liveCompilers : List Nat
  liveRules : List Nat
deriving DecidableEq, Repr

/-- Outcome of a native destroy call: either the handle was live and the
heap is updated, or the handle was already freed and the call is
undefined behavior (a double free). -/
inductive DestroyOutcome where
  | ok (heap : NativeHeap)
  | undefinedBehavior
deriving DecidableEq, Repr

/-- Modelled from the spec: `yr_compiler_destroy` frees a live compiler
handle; destroying a handle that is not live is undefined behavior. -/
def yr_compiler_destroy (heap : NativeHeap) (h : Nat) : DestroyOutcome :=
  if h ∈ heap.liveCompilers then
    .ok { heap with liveCompilers := heap.liveCompilers.erase h }
  else .undefinedBehavior

/-- Modelled from the spec: `yr_rules_destroy`, same discipline. -/
def yr_rules_destroy (heap : NativeHeap) (h : Nat) : DestroyOutcome :=
  if h ∈ heap.liveRules then
    .ok { heap with liveRules := heap.liveRules.erase h }
  else .undefinedBehavior

/-- `Compiler.Destroy` (yara.go:72): passes the stored handle to the
native destroy unconditionally — the Go value carries no destroyed flag
and is not changed by the call. -/
def Compiler.Destroy (heap : NativeHeap) (c : Compiler) : DestroyOutcome :=
  yr_compiler_destroy heap c.handle

/-- `Rules.Destroy` (yara.go:146): same shape as `Compiler.Destroy`. -/
def Rules.Destroy (heap : NativeHeap) (r : Rules) : DestroyOutcome :=
  yr_rules_destroy heap r.handle

/-- A concrete compiled rule used to exercise the scan loop: matches every
buffer. -/
def ruleAlways₁ : CompiledRule :=
  ⟨"default", "r1", [], [], fun _ => true⟩

/-- A second always-matching compiled rule, distinct identifier. -/
def ruleAlways₂ : CompiledRule :=
  ⟨"default", "r2", [], [], fun _ => true⟩

/-- C1: `Compiler.AddFile(ns, path)` does NOT merge under `ns`: at
yara.go:92 the namespace argument passed to `yr_compiler_add_file` is
`nil` (the `cns` C string built from `ns` is freed unused), so the rule
lands in the engine's default namespace whatever `ns` is.  Evaluated at
the failing input `AddFile("a", "/rules.yar")` on a source defining rule
`R`: the compiled rule's namespace is `"default"`, not `"a"`; the same
source added via `AddString("a", ...)` — which does pass `cns` — lands
under `"a"`. -/
theorem addFile_ignores_namespace_argument :
    (Compiler.AddFile ⟨[]⟩ "a" "/rules.yar"
        (fun _ => some ⟨[⟨"", "R", [], [], fun _ => true⟩], 0⟩)
      = .ok ⟨[⟨"default", "R", [], [], fun _ => true⟩]⟩)
    ∧ (Compiler.AddString ⟨[]⟩ "a" ⟨[⟨"", "R", [], [], fun _ => true⟩], 0⟩
      = .ok ⟨[⟨"a", "R", [], [], fun _ => true⟩]⟩)
    ∧ "default" ≠ "a" := by
  refine ⟨rfl, rfl, by decide⟩

/-- C2 counterexample: at the concrete input (empty rule set, empty
buffer, always-Continue callback) `ScanMemory` does not return a defined
error value: the `&buffer[0]` access at yara.go:163 is a Go runtime
bounds panic, so the claimed explicit emptiness check does not exist. -/
theorem scanMemory_empty_buffer_panics_example :
    Rules.ScanMemory ⟨[]⟩ [] (fun _ => .Continue)
      = .goPanic "runtime error: index out of range [0] with length 0" := rfl

/-- C2 amended: `ScanMemory` has the precondition that the buffer is
non-empty, but it performs no explicit check: on an empty buffer the
slice access `&buffer[0]` triggers a Go runtime bounds panic before any
native call, instead of returning a defined error; on a non-empty buffer
no panic occurs and a normal result is returned. -/
theorem scanMemory_empty_buffer_behavior :
    (∀ (r : YR_RULES) (fn : Rule → CallbackStatus),
       Rules.ScanMemory r [] fn
         = .goPanic "runtime error: index out of range [0] with length 0")
    ∧ (∀ (r : YR_RULES) (b : Nat) (bs : List Nat) (fn : Rule → CallbackStatus),
       ∃ res, Rules.ScanMemory r (b :: bs) fn = .ok res) := by
  constructor
  · intro r fn
    rfl
  · intro r b bs fn
    rcases he : yr_rules_scan_mem r (b :: bs) fn with ⟨code, trace⟩
    by_cases hc : code = ERROR_SUCCESS
    · exact ⟨(none, trace), by simp [Rules.ScanMemory, he, hc]⟩
    · exact ⟨(some (.yaraCode code), trace), by simp [Rules.ScanMemory, he, hc]⟩

/-- C3: with at least two rules all matching a non-empty buffer, a
callback answering `Abort` on its first invocation is invoked exactly
once (the trace is the single first record) and `ScanMemory` returns the
nil error: early termination, not failure. -/
theorem scanMemory_abort_short_circuits
    (r₁ r₂ : CompiledRule) (rest : List CompiledRule)
    (b : Nat) (bs : List Nat) (fn : Rule → CallbackStatus)
    (hall : ∀ cr ∈ r₁ :: r₂ :: rest, cr.condition (b :: bs) = true)
    (habort : fn (matchRecord r₁) = .Abort) :
    Rules.ScanMemory ⟨r₁ :: r₂ :: rest⟩ (b :: bs) fn
      = .ok (none, [matchRecord r₁]) := by
  have h₁ : r₁.condition (b :: bs) = true := hall r₁ (by simp)
  simp [Rules.ScanMemory, yr_rules_scan_mem, scanLoop, h₁, habort, ERROR_SUCCESS]

/-- Witness for C3 at a concrete two-rule set and buffer `[1]`. -/
theorem scanMemory_abort_short_circuits_witness :
    Rules.ScanMemory ⟨[ruleAlways₁, ruleAlways₂]⟩ [1] (fun _ => .Abort)
      = .ok (none, [matchRecord ruleAlways₁]) :=
  scanMemory_abort_short_circuits ruleAlways₁ ruleAlways₂ [] 1 []
    (fun _ => .Abort)
    (by
      intro cr hcr
      simp only [List.mem_cons, List.mem_singleton] at hcr
      rcases hcr with rfl | rfl | hcr
      · rfl
      · rfl
      · cases hcr)
    rfl

/-- C4: same setup, a callback answering `Fail` on its first invocation is
invoked exactly once and `ScanMemory` returns a non-nil error wrapping
the engine's callback-error status. -/
theorem scanMemory_fail_propagates
    (r₁ r₂ : CompiledRule) (rest : List CompiledRule)
    (b : Nat) (bs : List Nat) (fn : Rule → CallbackStatus)
    (hall : ∀ cr ∈ r₁ :: r₂ :: rest, cr.condition (b :: bs) = true)
    (hfail : fn (matchRecord r₁) = .Fail) :
    Rules.ScanMemory ⟨r₁ :: r₂ :: rest⟩ (b :: bs) fn
      = .ok (some (.yaraCode ERROR_CALLBACK_ERROR), [matchRecord r₁]) := by
  have h₁ : r₁.condition (b :: bs) = true := hall r₁ (by simp)
  simp [Rules.ScanMemory, yr_rules_scan_mem, scanLoop, h₁, hfail,
    ERROR_CALLBACK_ERROR, ERROR_SUCCESS]

/-- Witness for C4 at a concrete two-rule set and buffer `[1]`. -/
theorem scanMemory_fail_propagates_witness :
    Rules.ScanMemory ⟨[ruleAlways₁, ruleAlways₂]⟩ [1] (fun _ => .Fail)
      = .ok (some (.yaraCode ERROR_CALLBACK_ERROR), [matchRecord ruleAlways₁]) :=
  scanMemory_fail_propagates ruleAlways₁ ruleAlways₂ [] 1 []
    (fun _ => .Fail)
    (by
      intro cr hcr
      simp only [List.mem_cons, List.mem_singleton] at hcr
      rcases hcr with rfl | rfl | hcr
      · rfl
      · rfl
      · cases hcr)
    rfl

/-- C5: save/load round-trip.  If `Save` succeeds at `path` and
`LoadFromFile path` then succeeds yielding `r'`, scanning any non-empty
buffer against the original and the reloaded rule set gives identical
results — in particular the callback sees the identical ordered sequence
of match records. -/
theorem save_load_round_trip
    (r : YR_RULES) (path : String) (fs fs' : FileStore) (r' : YR_RULES)
    (b : Nat) (bs : List Nat) (fn : Rule → CallbackStatus)
    (hsave : Rules.Save r path fs true = (none, fs'))
    (hload : LoadFromFile path fs' = .ok r') :
    Rules.ScanMemory r (b :: bs) fn = Rules.ScanMemory r' (b :: bs) fn := by
  have hfs : fs' = fs.put path ⟨r.rules⟩ := by
    have := congrArg Prod.snd hsave
    simpa [Rules.Save, yr_rules_save, ERROR_SUCCESS] using this.symm
  subst hfs
  have hr' : r' = ⟨r.rules⟩ := by
    have := hload
    simp [LoadFromFile, yr_rules_load, FileStore.find, FileStore.put,
      ERROR_SUCCESS] at this
    exact this.symm
  subst hr'
  rfl

/-- Witness for C5: one always-matching rule, saved to `/saved` in an
empty store and reloaded; hypotheses discharged by evaluation. -/
theorem save_load_round_trip_witness :
    Rules.ScanMemory ⟨[ruleAlways₁]⟩ [1] (fun _ => .Continue)
      = Rules.ScanMemory ⟨[ruleAlways₁]⟩ [1] (fun _ => .Continue) :=
  save_load_round_trip ⟨[ruleAlways₁]⟩ "/saved" []
    (FileStore.put [] "/saved" ⟨[ruleAlways₁]⟩) ⟨[ruleAlways₁]⟩ 1 []
    (fun _ => .Continue) rfl rfl

/-- C6: every façade operation that receives a native status code returns
the nil error exactly when the code is the success sentinel, and
otherwise returns the numeric `Error` value wrapping that exact code —
stated for `Finalize`, `NewCompiler`, `Compiler.Rules`, `LoadFromFile`,
`Rules.Save`, `Rules.ScanMemory` (non-empty buffer, where the code is the
one the modelled engine scan returns) and `Rules.ScanFile`. -/
theorem facade_translates_status_codes :
    (∀ code : Int,
        (Finalize code = none ↔ code = ERROR_SUCCESS)
      ∧ (Finalize code = some (.yaraCode code) ↔ code ≠ ERROR_SUCCESS))
    ∧ (∀ code : Int,
        (NewCompiler code = .ok ⟨[]⟩ ↔ code = ERROR_SUCCESS)
      ∧ (NewCompiler code = .error (.yaraCode code) ↔ code ≠ ERROR_SUCCESS))
    ∧ (∀ (c : YR_COMPILER) (code : Int),
        (Compiler.Rules c code = .ok ⟨c.rules⟩ ↔ code = ERROR_SUCCESS)
      ∧ (Compiler.Rules c code = .error (.yaraCode code) ↔ code ≠ ERROR_SUCCESS))
    ∧ (∀ (path : String) (fs : FileStore),
        (LoadFromFile path fs = .ok (yr_rules_load path fs).2
          ↔ (yr_rules_load path fs).1 = ERROR_SUCCESS)
      ∧ (LoadFromFile path fs = .error (.yaraCode (yr_rules_load path fs).1)
          ↔ (yr_rules_load path fs).1 ≠ ERROR_SUCCESS))
    ∧ (∀ (r : YR_RULES) (path : String) (fs : FileStore) (ioOk : Bool),
        ((Rules.Save r path fs ioOk).1 = none
          ↔ (yr_rules_save r path fs ioOk).1 = ERROR_SUCCESS)
      ∧ ((Rules.Save r path fs ioOk).1
            = some (.yaraCode (yr_rules_save r path fs ioOk).1)
          ↔ (yr_rules_save r path fs ioOk).1 ≠ ERROR_SUCCESS))
    ∧ (∀ (r : YR_RULES) (b : Nat) (bs : List Nat) (fn : Rule → CallbackStatus),
        (Rules.ScanMemory r (b :: bs) fn
            = .ok (none, (yr_rules_scan_mem r (b :: bs) fn).2)
          ↔ (yr_rules_scan_mem r (b :: bs) fn).1 = ERROR_SUCCESS)
      ∧ (Rules.ScanMemory r (b :: bs) fn
            = .ok (some (.yaraCode (yr_rules_scan_mem r (b :: bs) fn).1),
                (yr_rules_scan_mem r (b :: bs) fn).2)
          ↔ (yr_rules_scan_mem r (b :: bs) fn).1 ≠ ERROR_SUCCESS))
    ∧ (∀ (r : YR_RULES) (fopen : String → Option (List Nat)) (path : String)
          (fn : Rule → CallbackStatus),
        ((Rules.ScanFile r fopen path fn).1 = none
          ↔ (yr_rules_scan_file r fopen path fn).1 = ERROR_SUCCESS)
      ∧ ((Rules.ScanFile r fopen path fn).1
            = some (.yaraCode (yr_rules_scan_file r fopen path fn).1)
          ↔ (yr_rules_scan_file r fopen path fn).1 ≠ ERROR_SUCCESS)) := by
  refine ⟨?_, ?_, ?_, ?_, ?_, ?_, ?_⟩
  · intro code
    by_cases hc : code = ERROR_SUCCESS <;> simp [Finalize, hc]
  · intro code
    by_cases hc : code = ERROR_SUCCESS <;> simp [NewCompiler, hc]
  · intro c code
    by_cases hc : code = ERROR_SUCCESS <;> simp [Compiler.Rules, hc]
  · intro path fs
    rcases he : yr_rules_load path fs with ⟨code, handle⟩
    by_cases hc : code = ERROR_SUCCESS <;> simp [LoadFromFile, he, hc]
  · intro r path fs ioOk
    rcases he : yr_rules_save r path fs ioOk with ⟨code, fs'⟩
    by_cases hc : code = ERROR_SUCCESS <;> simp [Rules.Save, he, hc]
  · intro r b bs fn
    rcases he : yr_rules_scan_mem r (b :: bs) fn with ⟨code, trace⟩
    by_cases hc : code = ERROR_SUCCESS <;> simp [Rules.ScanMemory, he, hc]
  · intro r fopen path fn
    rcases he : yr_rules_scan_file r fopen path fn with ⟨code, trace⟩
    by_cases hc : code = ERROR_SUCCESS <;> simp [Rules.ScanFile, he, hc]

/-- Decide whether an `Except` result is a success. -/
def exceptOk (e : Except GoError YR_COMPILER) : Bool :=
  match e with
  | .ok _ => true
  | .error _ => false

/-- C7: `AddString` and `AddFile` return a compile-failure error exactly
when the engine's reported error count is positive (an aggregate signal,
no per-diagnostic detail in the error value); `AddFile` reports failure
to open the path as the distinct `openFailed` error — produced before the
engine runs, hence the same for every session state — and the open-failure
error is never equal to a compile-failure error. -/
theorem compile_error_signaling :
    (∀ (c : YR_COMPILER) (ns : String) (src : Source),
        (Compiler.AddString c ns src = .error .compileStringFailed
          ↔ src.errorCount > 0)
      ∧ (exceptOk (Compiler.AddString c ns src) = true ↔ src.errorCount = 0))
    ∧ (∀ (c : YR_COMPILER) (ns path : String),
        Compiler.AddFile c ns path (fun _ => none) = .error (.openFailed path))
    ∧ (∀ (c : YR_COMPILER) (ns path : String) (src : Source),
        (Compiler.AddFile c ns path (fun _ => some src)
            = .error (.compileFileFailed path)
          ↔ src.errorCount > 0)
      ∧ (exceptOk (Compiler.AddFile c ns path (fun _ => some src)) = true
          ↔ src.errorCount = 0))
    ∧ (∀ p q : String, (GoError.openFailed p = GoError.compileFileFailed q) ↔ False) := by
  refine ⟨?_, ?_, ?_, ?_⟩
  · intro c ns src
    by_cases h : src.errorCount = 0
    · simp [Compiler.AddString, yr_compiler_add, h, exceptOk]
    · have h' : src.errorCount > 0 := Nat.pos_of_ne_zero h
      simp [Compiler.AddString, yr_compiler_add, h', Nat.pos_iff_ne_zero.mp h',
        exceptOk]
  · intro c ns path
    rfl
  · intro c ns path src
    by_cases h : src.errorCount = 0
    · simp [Compiler.AddFile, yr_compiler_add, h, exceptOk]
    · have h' : src.errorCount > 0 := Nat.pos_of_ne_zero h
      simp [Compiler.AddFile, yr_compiler_add, h', Nat.pos_iff_ne_zero.mp h',
        exceptOk]
  · intro p q
    simp

/-- C8 counterexample: at the concrete input (unopenable path `/nope`),
`ScanFile` returns the plain numeric engine-status error wrapping the
engine's could-not-open code — the same numeric `Error` form as any other
engine status — not an I/O error value carrying the offending path (the
`openFailed` form the façade uses for open failures in `AddFile`). -/
theorem scanFile_open_failure_is_numeric_example :
    Rules.ScanFile ⟨[]⟩ (fun _ => none) "/nope" (fun _ => .Continue)
      = (some (.yaraCode ERROR_COULD_NOT_OPEN_FILE), [])
    ∧ ((GoError.yaraCode ERROR_COULD_NOT_OPEN_FILE = GoError.openFailed "/nope")
        ↔ False) := by
  exact ⟨rfl, by simp⟩

/-- C8 amended: when `ScanFile` cannot open the path, the error is
surfaced before any callback invocation (the invocation trace is empty),
but it is the numeric engine-status `Error` wrapping the engine's
could-not-open code — it does not carry the offending path and is not a
distinct error form from other engine status errors. -/
theorem scanFile_open_failure_behavior :
    (∀ (r : YR_RULES) (path : String) (fn : Rule → CallbackStatus),
       Rules.ScanFile r (fun _ => none) path fn
         = (some (.yaraCode ERROR_COULD_NOT_OPEN_FILE), []))
    ∧ (∀ (code : Int) (p : String),
       (GoError.yaraCode code = GoError.openFailed p) ↔ False) := by
  constructor
  · intro r path fn
    rfl
  · intro code p
    simp

/-- C9 counterexample: at the concrete heap with live compiler handle 7
and live rule-set handle 9, a second `Destroy` of the same value is
representable and is not a defined error: it reaches the native layer
with an already-freed handle (a double free), i.e. undefined behavior. -/
theorem destroy_twice_example :
    Compiler.Destroy ⟨[7], [9]⟩ ⟨7⟩ = .ok ⟨[], [9]⟩
    ∧ Compiler.Destroy ⟨[], [9]⟩ ⟨7⟩ = .undefinedBehavior
    ∧ Rules.Destroy ⟨[], [9]⟩ ⟨9⟩ = .ok ⟨[], []⟩
    ∧ Rules.Destroy ⟨[], []⟩ ⟨9⟩ = .undefinedBehavior := by
  refine ⟨by decide, by decide, by decide, by decide⟩

/-- C9 amended: `Compiler.Destroy` and `Rules.Destroy` keep no destroyed
flag and perform no check: for any heap in which the value's handle is
live (and held once), the first destroy succeeds and a second destroy of
the same value passes the already-freed handle to the native layer
again — undefined behavior, neither unrepresentable nor a defined safe
error. -/
theorem destroy_second_time_is_undefined
    (heap : NativeHeap) (c : Compiler) (r : Rules)
    (hcd : heap.liveCompilers.Nodup) (hrd : heap.liveRules.Nodup)
    (hc : c.handle ∈ heap.liveCompilers) (hr : r.handle ∈ heap.liveRules) :
    Compiler.Destroy heap c
      = .ok { heap with liveCompilers := heap.liveCompilers.erase c.handle }
    ∧ Compiler.Destroy
        { heap with liveCompilers := heap.liveCompilers.erase c.handle } c
      = .undefinedBehavior
    ∧ Rules.Destroy heap r
      = .ok { heap with liveRules := heap.liveRules.erase r.handle }
    ∧ Rules.Destroy { heap with liveRules := heap.liveRules.erase r.handle } r
      = .undefinedBehavior := by
  refine ⟨?_, ?_, ?_, ?_⟩
  · simp [Compiler.Destroy, yr_compiler_destroy, hc]
  · simp [Compiler.Destroy, yr_compiler_destroy, hcd.not_mem_erase]
  · simp [Rules.Destroy, yr_rules_destroy, hr]
  · simp [Rules.Destroy, yr_rules_destroy, hrd.not_mem_erase]

/-- Witness for C9's amended theorem at the concrete heap `⟨[7], [9]⟩`. -/
theorem destroy_second_time_is_undefined_witness :
    Compiler.Destroy ⟨[7], [9]⟩ ⟨7⟩ = .ok ⟨[7].erase 7, [9]⟩
    ∧ Compiler.Destroy ⟨[7].erase 7, [9]⟩ ⟨7⟩ = .undefinedBehavior
    ∧ Rules.Destroy ⟨[7], [9]⟩ ⟨9⟩ = .ok ⟨[7], [9].erase 9⟩
    ∧ Rules.Destroy ⟨[7], [9].erase 9⟩ ⟨9⟩ = .undefinedBehavior :=
  destroy_second_time_is_undefined ⟨[7], [9]⟩ ⟨7⟩ ⟨9⟩
    (by decide) (by decide) (by decide) (by decide)

/-- C10: `NewRule` yields the record with empty `Identifier`, nil `Tags`
slice and an allocated empty `Metadata` map, so a map assignment into a
freshly constructed record always succeeds (never the nil-map panic);
and a `Rule` is exactly its three fields `Identifier`, `Tags`,
`Metadata`. -/
theorem newRule_initialization :
    NewRule = { Identifier := "", Tags := none, Metadata := some [] }
    ∧ (∀ k v : String, goMapInsert NewRule.Metadata k v = .ok [(k, v)])
    ∧ (∀ r : Rule, r = ⟨r.Identifier, r.Tags, r.Metadata⟩) := by
  refine ⟨rfl, fun k v => rfl, fun r => rfl⟩

end Yara
